import Mathlib

/-!
Shallow embedding of the core scraping pipeline of
`openinsiderData/openinsider_scraper.py` (class `OpenInsiderScraper`):
the record model, numeric coercion (`_clean_numeric`), the filter predicate
(`_apply_filters`), the per-month work unit (`_get_data_for_month`) with its
cache check, fetch-with-retry and parse/filter/dedup loop, and the
orchestrator's aggregation loop (`scrape`).

Python floats are modelled as rationals (ℚ): every numeric literal and
threshold the pipeline compares is an exact decimal, so ℚ is a faithful
abstraction of the comparisons performed.  Filesystem and network effects are
modelled as an explicit environment (`MonthEnv`) describing what the cache
file and each network attempt would yield; the functions return, alongside
their value, which effects occurred (fetch invoked, cache written).
-/

namespace OpenInsider

/-- Mirrors the Python dataclass `ScraperConfig` (all 19 fields).
`min_transaction_value` is a float and `min_shares_traded`, `cache_max_age`
are ints in the source; all are modelled in ℚ since they only enter ordered
comparisons against coerced values. -/
structure ScraperConfig where
  output_dir : String
  output_file : String
  output_format : String
  start_year : Int
  start_month : Int
  max_workers : Nat
  retry_attempts : Nat
  timeout : ℚ
  min_transaction_value : ℚ
  transaction_types : List String
  exclude_companies : List String
  include_companies : List String
  min_shares_traded : ℚ
  log_level : String
  log_file : String
  rotate_logs : Bool
  max_log_size : Nat
  cache_enabled : Bool
  cache_dir : String
  cache_max_age : ℚ
deriving Repr

/-- The 12 retained fields of one scraped row, in the order of the Python
dict `insider_data` in `_get_data_for_month`.  The Python code stores a row
as `tuple(insider_data.values())`; equality there is structural over all 12
components, which `DecidableEq` mirrors. -/
structure Record where
  filing_date : String
  trade_date : String
  ticker : String
  company_name : String
  owner_name : String
  title : String
  trade_type : String
  price : String
  qty : String
  owned : String
  change_pct : String
  value : String
deriving DecidableEq, Repr

/-! ### Numeric coercion: `_clean_numeric`

`_clean_numeric` lowercases to test the `n/a` / `new` tokens, strips the
characters `$`, `,`, `+`, `%`, then calls Python `float()`, mapping a
`ValueError` to `0.0`.  `pyFloat?` models `float()` on decimal string
literals: optional surrounding whitespace, an optional sign, a mantissa of
digits with at most one point, and an optional exponent part. -/

/-- Accumulate a run of leading decimal digits: returns the value read, the
number of digits consumed, and the rest of the input. -/
def takeDigits : Nat → Nat → List Char → Nat × Nat × List Char
  | acc, n, c :: cs =>
      if c.isDigit then takeDigits (acc * 10 + (c.toNat - 48)) (n + 1) cs
      else (acc, n, c :: cs)
  | acc, n, [] => (acc, n, [])

/-- Mantissa: `digits [. digits]` or `. digits`; at least one digit total.
Returns the digit string read as one integer together with the number of
fractional digits, so `1234.50` yields `(123450, 2, rest)`. -/
def parseMantissa (cs : List Char) : Option (Nat × Nat × List Char) :=
  let (ip, ipn, cs1) := takeDigits 0 0 cs
  match cs1 with
  | '.' :: cs2 =>
      let (fp, fpn, cs3) := takeDigits 0 0 cs2
      if ipn = 0 ∧ fpn = 0 then none
      else some (ip * 10 ^ fpn + fp, fpn, cs3)
  | _ => if ipn = 0 then none else some (ip, 0, cs1)

/-- A signed decimal integer (for the exponent part). -/
def parseSignedInt (cs : List Char) : Option (Int × List Char) :=
  match cs with
  | '+' :: cs1 =>
      let (v, n, cs2) := takeDigits 0 0 cs1
      if n = 0 then none else some ((v : Int), cs2)
  | '-' :: cs1 =>
      let (v, n, cs2) := takeDigits 0 0 cs1
      if n = 0 then none else some (-(v : Int), cs2)
  | _ =>
      let (v, n, cs2) := takeDigits 0 0 cs
      if n = 0 then none else some ((v : Int), cs2)

/-- Optional exponent part `e`/`E` followed by a signed integer; absent
means exponent `0`. -/
def parseExpPart (cs : List Char) : Option (Int × List Char) :=
  match cs with
  | 'e' :: cs1 => parseSignedInt cs1
  | 'E' :: cs1 => parseSignedInt cs1
  | _ => some (0, cs)

/-- Strip whitespace from both ends, as Python `float()` does with its
string argument. -/
def pyStrip (cs : List Char) : List Char :=
  ((cs.dropWhile Char.isWhitespace).reverse.dropWhile Char.isWhitespace).reverse

/-- Integer decomposition of a Python float literal: sign, mantissa digits
as one integer, number of fractional digits, exponent.  Everything here is
`decide`-computable; the ℚ value is assembled afterwards. -/
def pyFloatParts? (s : String) : Option (Bool × Nat × Nat × Int) :=
  let cs := pyStrip s.toList
  let (neg, cs0) : Bool × List Char :=
    match cs with
    | '+' :: r => (false, r)
    | '-' :: r => (true, r)
    | r => (false, r)
  match parseMantissa cs0 with
  | none => none
  | some (m, f, cs1) =>
      match parseExpPart cs1 with
      | none => none
      | some (e, cs2) =>
          if cs2 = [] then some (neg, m, f, e) else none

/-- The rational a decomposed float literal denotes. -/
def ratOfParts (p : Bool × Nat × Nat × Int) : ℚ :=
  (if p.1 then -1 else 1) * (p.2.1 : ℚ) / (10 : ℚ) ^ p.2.2.1 * (10 : ℚ) ^ p.2.2.2

/-- Model of Python `float(s)` for decimal literals, returning `none` where
`float()` raises `ValueError`.  The exact value is kept in ℚ. -/
def pyFloat? (s : String) : Option ℚ :=
  (pyFloatParts? s).map ratOfParts

/-- `value.replace('$','').replace(',','').replace('+','').replace('%','')`. -/
def stripSymbols (s : String) : String :=
  ⟨s.toList.filter fun c => ¬ (c = '$' ∨ c = ',' ∨ c = '+' ∨ c = '%')⟩

/-- `value.lower()` (ASCII, which covers every token compared against). -/
def pyLower (s : String) : String :=
  ⟨s.toList.map Char.toLower⟩

/-- `_clean_numeric` (lines 169-176): empty string and the tokens `n/a`,
`new` (case-insensitive) map to `0.0`; otherwise strip `$,+%` and parse,
with parse failure mapped to `0.0` by the `except ValueError` branch. -/
def cleanNumeric (value : String) : ℚ :=
  if value = "" ∨ pyLower value = "n/a" ∨ pyLower value = "new" then 0
  else
    match pyFloat? (stripSymbols value) with
    | some q => q
    | none => 0

/-- Evaluation helper: a non-token string whose stripped form parses to
`p` coerces to `ratOfParts p`. -/
theorem cleanNumeric_of_parts (s : String) (p : Bool × Nat × Nat × Int)
    (h0 : ¬ (s = "" ∨ pyLower s = "n/a" ∨ pyLower s = "new"))
    (hp : pyFloatParts? (stripSymbols s) = some p) :
    cleanNumeric s = ratOfParts p := by
  rw [cleanNumeric, if_neg h0, pyFloat?, hp]
  rfl

/-- Evaluation helper: parse failure after stripping coerces to `0`. -/
theorem cleanNumeric_of_fail (s : String)
    (hp : pyFloatParts? (stripSymbols s) = none) :
    cleanNumeric s = 0 := by
  rw [cleanNumeric, pyFloat?, hp]
  split <;> rfl

/-! ### The filter predicate: `_apply_filters` -/

/-- `_apply_filters` (lines 178-193).  The Python body is total on string
dictionaries (its `except` clause is unreachable for string-valued fields),
so the model is the plain cascade of the five rejection tests. -/
def applyFilters (cfg : ScraperConfig) (r : Record) : Bool :=
  if ¬ cfg.transaction_types = [] ∧ ¬ r.trade_type ∈ cfg.transaction_types then false
  else if r.ticker ∈ cfg.exclude_companies then false
  else if ¬ cfg.include_companies = [] ∧ ¬ r.ticker ∈ cfg.include_companies then false
  else if cleanNumeric r.value < cfg.min_transaction_value then false
  else if |cleanNumeric r.qty| < cfg.min_shares_traded then false
  else true

/-! ### The work unit: `_get_data_for_month`

A raw table row is the list of its cell texts (after `col.text.strip()`).
The parse/filter/dedup loop keeps a row only when it has exactly the 17
expected columns; the 12 retained cells (positions 1-12 of the
`column_keys` schema) become the `Record`. -/

/-- Positional retention of the 12 `insider_data` fields out of the 17
`column_keys` cells; any other column count is skipped (`continue`). -/
def retainedRecord : List String → Option Record
  | [_x, filing_date, trade_date, ticker, company_name, owner_name, title,
     trade_type, price, qty, owned, change_pct, value, _d1, _w1, _m1, _m6] =>
      some { filing_date, trade_date, ticker, company_name, owner_name, title,
             trade_type, price, qty, owned, change_pct, value }
  | _ => none

/-- One iteration of the row loop (lines 132-157): skip malformed rows,
drop filtered rows, `data.add` the rest. -/
def rowStep (cfg : ScraperConfig) (data : Finset Record) (row : List String) :
    Finset Record :=
  match retainedRecord row with
  | none => data
  | some r => if applyFilters cfg r then insert r data else data

/-- The whole row loop: `data = set(); for row in rows: ...`. -/
def filterRows (cfg : ScraperConfig) (rows : List (List String)) :
    Finset Record :=
  rows.foldl (rowStep cfg) ∅

/-! #### Fetch with retry

`_fetch_data` is decorated `@retry(tries=3, delay=2, backoff=2)`: at most
3 attempts, sleeping 2 s then 4 s between them (delay doubling), re-raising
the last exception once the attempts are exhausted.  The decorator's
arguments are literals; `ScraperConfig.retry_attempts` does not reach it. -/

/-- Number of attempts `_fetch_data` makes: the decorator's literal
`tries=3`, whatever the configuration says. -/
def fetchTries (_cfg : ScraperConfig) : Nat := 3

/-- The sleeps the decorator performs between attempts: `tries - 1` delays
starting at `delay` and multiplied by `backoff` each time. -/
def retrySchedule : Nat → ℚ → ℚ → List ℚ
  | 0, _, _ => []
  | 1, _, _ => []
  | n + 2, d, b => d :: retrySchedule (n + 1) (d * b) b

/-- The delays `_fetch_data`'s decorator sleeps: base 2, backoff factor 2. -/
def fetchDelays (cfg : ScraperConfig) : List ℚ :=
  retrySchedule (fetchTries cfg) 2 2

/-- Run up to `tries` attempts, returning the first success; `none` when
every attempt fails (the decorator re-raises). -/
def runRetry {α : Type} (attempt : Nat → Option α) : Nat → Nat → Option α
  | _, 0 => none
  | i, n + 1 =>
      match attempt i with
      | some a => some a
      | none => runRetry attempt (i + 1) n

/-! #### The environment of one work unit

`MonthEnv` records what the outside world would answer: the age of the
unit's cache file (`none` when the file does not exist), what `json.load`
on it would yield (`none` when the JSON is corrupt and `json.load` raises),
and the outcome of each network attempt.  An attempt yields `none` on a
transport failure; a successful response carries the parse of its body:
`none` when no `table.tinytable` is present, otherwise the table rows. -/
structure MonthEnv where
  cacheAge : Option ℚ
  cacheContent : Option (List Record)
  attempts : Nat → Option (Option (List (List String)))

/-- `_is_cache_valid` (lines 97-101): the file exists and its age is
strictly below `cache_max_age` hours. -/
def isCacheValid (cfg : ScraperConfig) (cacheAge : Option ℚ) : Bool :=
  match cacheAge with
  | none => false
  | some age => age < cfg.cache_max_age * 3600

/-- Everything observable about one `_get_data_for_month` call: its value
(`Except.error` when an exception escapes the method), whether any network
attempt was made, and the set written to the cache file, if any. -/
structure MonthResult where
  result : Except Unit (Finset Record)
  fetchInvoked : Bool
  cacheWritten : Option (Finset Record)

/-- `_get_data_for_month` (lines 103-167).  The cache-read branch sits
before the `try`, so a `json.load` failure there escapes the method; inside
the `try`, a fetch that fails all retries (or any other exception) is
caught by the `except` and yields the empty set; a response with no table
returns the empty set before the cache write; otherwise the filtered,
deduplicated rows are returned and, when caching is on, written back. -/
def getDataForMonth (cfg : ScraperConfig) (env : MonthEnv) : MonthResult :=
  if cfg.cache_enabled ∧ isCacheValid cfg env.cacheAge then
    match env.cacheContent with
    | none => { result := .error (), fetchInvoked := false, cacheWritten := none }
    | some recs =>
        { result := .ok recs.toFinset, fetchInvoked := false, cacheWritten := none }
  else
    match runRetry env.attempts 0 (fetchTries cfg) with
    | none => { result := .ok ∅, fetchInvoked := true, cacheWritten := none }
    | some none => { result := .ok ∅, fetchInvoked := true, cacheWritten := none }
    | some (some rows) =>
        { result := .ok (filterRows cfg rows)
          fetchInvoked := true
          cacheWritten := if cfg.cache_enabled then some (filterRows cfg rows) else none }

/-! ### The orchestrator's aggregation loop (`scrape`, lines 210-216)

Each future's value is `extend`ed onto `all_data`; a future that raised is
logged and skipped.  `all_data` is the concatenation of the per-unit sets
in completion order; since `as_completed` fixes no order, the multiset of
its elements is the order-independent observable. -/

/-- The multiset of `all_data` after draining the futures, given each
unit's outcome. -/
def aggregate (results : List (Except Unit (Finset Record))) : Multiset Record :=
  (results.map fun res =>
    match res with
    | .ok s => s.val
    | .error _ => 0).sum

/-! ### Concrete fixtures used to instantiate the theorems -/

/-- A concrete configuration: the documented defaults of the scraper
(`min_transaction_value = 25000`, caching on for 24 hours, no
ticker or type restrictions). -/
def baseCfg : ScraperConfig :=
  { output_dir := "data"
    output_file := "insider_trades.csv"
    output_format := "csv"
    start_year := 2015
    start_month := 1
    max_workers := 10
    retry_attempts := 3
    timeout := 30
    min_transaction_value := 25000
    transaction_types := []
    exclude_companies := []
    include_companies := []
    min_shares_traded := 0
    log_level := "INFO"
    log_file := "scraper.log"
    rotate_logs := true
    max_log_size := 10
    cache_enabled := true
    cache_dir := "cache"
    cache_max_age := 24 }

/-- A concrete record as the row loop would build it. -/
def sampleRecord : Record :=
  { filing_date := "2024-01-05 09:00:00"
    trade_date := "2024-01-03"
    ticker := "ACME"
    company_name := "Acme Corp"
    owner_name := "Doe John"
    title := "CEO"
    trade_type := "P - Purchase"
    price := "$10.00"
    qty := "5,000"
    owned := "50,000"
    change_pct := "+10%"
    value := "$50,000" }

/-- A raw 17-cell table row whose retained cells are `sampleRecord`. -/
def sampleRow : List String :=
  ["x", "2024-01-05 09:00:00", "2024-01-03", "ACME", "Acme Corp", "Doe John",
   "CEO", "P - Purchase", "$10.00", "5,000", "50,000", "+10%", "$50,000",
   "1%", "2%", "3%", "4%"]

/-- The same row with different discarded return columns. -/
def sampleRowAlt : List String :=
  ["x", "2024-01-05 09:00:00", "2024-01-03", "ACME", "Acme Corp", "Doe John",
   "CEO", "P - Purchase", "$10.00", "5,000", "50,000", "+10%", "$50,000",
   "5%", "6%", "7%", "8%"]

theorem cleanNumeric_25000 : cleanNumeric "$25,000" = 25000 := by
  rw [cleanNumeric_of_parts _ (false, 25000, 0, 0) (by decide) (by decide)]
  norm_num [ratOfParts]

theorem cleanNumeric_24999 : cleanNumeric "$24,999" = 24999 := by
  rw [cleanNumeric_of_parts _ (false, 24999, 0, 0) (by decide) (by decide)]
  norm_num [ratOfParts]

theorem cleanNumeric_5000 : cleanNumeric "5,000" = 5000 := by
  rw [cleanNumeric_of_parts _ (false, 5000, 0, 0) (by decide) (by decide)]
  norm_num [ratOfParts]

theorem cleanNumeric_50000 : cleanNumeric "$50,000" = 50000 := by
  rw [cleanNumeric_of_parts _ (false, 50000, 0, 0) (by decide) (by decide)]
  norm_num [ratOfParts]

/-- `sampleRecord` passes the default filters. -/
theorem applyFilters_sample : applyFilters baseCfg sampleRecord = true := by
  norm_num [applyFilters, baseCfg, sampleRecord, cleanNumeric_50000, cleanNumeric_5000]

/-- Lowering the value to `$24,999` fails the default filters. -/
theorem applyFilters_sample_low :
    applyFilters baseCfg { sampleRecord with value := "$24,999" } = false := by
  norm_num [applyFilters, baseCfg, sampleRecord, cleanNumeric_24999, cleanNumeric_5000]

/-- Raising the value to exactly `$25,000` passes the default filters. -/
theorem applyFilters_sample_eq :
    applyFilters baseCfg { sampleRecord with value := "$25,000" } = true := by
  norm_num [applyFilters, baseCfg, sampleRecord, cleanNumeric_25000, cleanNumeric_5000]

/-! ### Claim theorems -/

/-- C6: `_clean_numeric` maps `"N/A"`, `""` and `"new"` (case-insensitively
for the named tokens) to `0.0`, maps `"$1,234.50"` to `1234.50` after
stripping `$`, `,`, `+` and `%`, and maps any string that still fails
numeric conversion after stripping to `0.0` rather than raising. -/
theorem clean_numeric_spec :
    cleanNumeric "N/A" = 0 ∧ cleanNumeric "n/a" = 0 ∧ cleanNumeric "" = 0 ∧
    cleanNumeric "new" = 0 ∧ cleanNumeric "NEW" = 0 ∧
    cleanNumeric "$1,234.50" = 1234.50 ∧
    (∀ s : String, pyFloatParts? (stripSymbols s) = none → cleanNumeric s = 0) := by
  refine ⟨rfl, rfl, rfl, rfl, rfl, ?_, fun s h => cleanNumeric_of_fail s h⟩
  rw [cleanNumeric_of_parts _ (false, 123450, 2, 0) (by decide) (by decide)]
  norm_num [ratOfParts]

/-- Witness for C6's universally quantified conjunct at `"1.2.3"`, a string
that still fails conversion after stripping. -/
theorem clean_numeric_spec_witness : cleanNumeric "1.2.3" = 0 :=
  clean_numeric_spec.2.2.2.2.2.2 "1.2.3" (by decide)

/-- C5: `_apply_filters` returns false iff one of the five rejection
conditions holds; a value exactly at `min_transaction_value` is accepted
(`"$25,000"` against `25000`), while `"$24,999"` is rejected. -/
theorem apply_filters_spec :
    (∀ (cfg : ScraperConfig) (r : Record),
      applyFilters cfg r = false ↔
        (cfg.transaction_types ≠ [] ∧ r.trade_type ∉ cfg.transaction_types) ∨
        r.ticker ∈ cfg.exclude_companies ∨
        (cfg.include_companies ≠ [] ∧ r.ticker ∉ cfg.include_companies) ∨
        cleanNumeric r.value < cfg.min_transaction_value ∨
        |cleanNumeric r.qty| < cfg.min_shares_traded) ∧
    applyFilters baseCfg { sampleRecord with value := "$25,000" } = true ∧
    applyFilters baseCfg { sampleRecord with value := "$24,999" } = false := by
  refine ⟨fun cfg r => ?_, applyFilters_sample_eq, applyFilters_sample_low⟩
  rw [applyFilters]
  split_ifs with h1 h2 h3 h4 h5 <;> simp_all

/-! #### Helpers about the row loop -/

theorem mem_rowStep_of_mem {cfg : ScraperConfig} {data : Finset Record}
    {row : List String} {r : Record} (h : r ∈ data) : r ∈ rowStep cfg data row := by
  rw [rowStep]
  rcases retainedRecord row with _ | r₀
  · exact h
  · dsimp only
    split
    · exact Finset.mem_insert_of_mem h
    · exact h

theorem mem_foldl_rowStep_of_mem {cfg : ScraperConfig} {r : Record} :
    ∀ (rows : List (List String)) (acc : Finset Record),
      r ∈ acc → r ∈ rows.foldl (rowStep cfg) acc
  | [], _, h => h
  | _ :: rows, _, h =>
      mem_foldl_rowStep_of_mem rows _ (mem_rowStep_of_mem h)

/-- A record rejected by the filters is never inserted by the row loop. -/
theorem not_mem_filterRows {cfg : ScraperConfig} {r : Record}
    (hrej : applyFilters cfg r = false) :
    ∀ (rows : List (List String)) (data : Finset Record),
      r ∉ data → r ∉ rows.foldl (rowStep cfg) data := by
  intro rows
  induction rows with
  | nil => exact fun _ h => h
  | cons row rows ih =>
      intro data hd
      apply ih
      rw [rowStep]
      rcases hrr : retainedRecord row with _ | r₀
      · exact hd
      · dsimp only
        split
        · rw [Finset.mem_insert]
          rintro (rfl | hmem)
          · next hacc => rw [hrej] at hacc; exact Bool.false_ne_true hacc
          · exact hd hmem
        · exact hd

/-- C1: a raw row whose 12 retained fields fail `_apply_filters` contributes
its record neither to the set `_get_data_for_month` returns nor to the cache
file written for that unit. -/
theorem filtered_record_never_output (cfg : ScraperConfig) (env : MonthEnv)
    (rows : List (List String)) (r : Record)
    (hmiss : ¬ (cfg.cache_enabled ∧ isCacheValid cfg env.cacheAge))
    (hfetch : runRetry env.attempts 0 (fetchTries cfg) = some (some rows))
    (hrej : applyFilters cfg r = false) :
    (∀ S, (getDataForMonth cfg env).result = .ok S → r ∉ S) ∧
    (∀ T, (getDataForMonth cfg env).cacheWritten = some T → r ∉ T) := by
  have hout : r ∉ filterRows cfg rows :=
    not_mem_filterRows hrej rows ∅ (Finset.not_mem_empty r)
  rw [getDataForMonth, if_neg hmiss, hfetch]
  constructor
  · intro S hS
    dsimp only at hS
    cases hS
    exact hout
  · intro T hT
    dsimp only at hT
    split at hT
    · cases hT
      exact hout
    · cases hT

/-- Witness for C1: with caching off the fetch path runs, and the
`$24,999` record is excluded from both the result and the cache write. -/
theorem filtered_record_never_output_witness :
    (∀ S, (getDataForMonth baseCfg
        { cacheAge := none, cacheContent := none,
          attempts := fun _ => some (some [sampleRow]) }).result = .ok S →
      { sampleRecord with value := "$24,999" } ∉ S) ∧
    (∀ T, (getDataForMonth baseCfg
        { cacheAge := none, cacheContent := none,
          attempts := fun _ => some (some [sampleRow]) }).cacheWritten = some T →
      { sampleRecord with value := "$24,999" } ∉ T) :=
  filtered_record_never_output baseCfg _ [sampleRow] _
    (by decide) rfl applyFilters_sample_low

/-- Processing a row whose retained record (if any) has already been
accumulated changes nothing. -/
theorem rowStep_eq_self {cfg : ScraperConfig} {data : Finset Record}
    {row : List String} {r : Record} (hrr : retainedRecord row = some r)
    (hmem : applyFilters cfg r = true → r ∈ data) :
    rowStep cfg data row = data := by
  rw [rowStep, hrr]
  dsimp only
  split
  · next hacc => exact Finset.insert_eq_self.mpr (hmem hacc)
  · rfl

/-- C7: two raw rows with equal retained fields contribute one record: the
row loop's result is unchanged when the later duplicate is dropped. -/
theorem dedup_within_unit (cfg : ScraperConfig)
    (l₁ l₂ l₃ : List (List String)) (row dup : List String)
    (h : retainedRecord row = retainedRecord dup) :
    filterRows cfg (l₁ ++ row :: l₂ ++ dup :: l₃) =
      filterRows cfg (l₁ ++ row :: l₂ ++ l₃) := by
  simp only [filterRows, List.foldl_append, List.foldl_cons]
  congr 1
  rcases hrr : retainedRecord dup with _ | r
  · rw [rowStep, hrr]
  · apply rowStep_eq_self hrr
    intro hacc
    apply mem_foldl_rowStep_of_mem l₂
    rw [rowStep, h, hrr]
    dsimp only
    rw [if_pos hacc]
    exact Finset.mem_insert_self r _

/-- Witness for C7: the duplicate of `sampleRow` differing only in the
discarded return columns collapses to one record. -/
theorem dedup_within_unit_witness :
    filterRows baseCfg ([] ++ sampleRow :: [] ++ sampleRowAlt :: []) =
      filterRows baseCfg ([] ++ sampleRow :: [] ++ []) :=
  dedup_within_unit baseCfg [] [] [] sampleRow sampleRowAlt rfl

/-! #### Helpers about the cache check, retry and aggregation -/

theorem runRetry_eq_none {α : Type} {attempt : Nat → Option α}
    (h : ∀ i, attempt i = none) : ∀ i n, runRetry attempt i n = none
  | _, 0 => rfl
  | i, n + 1 => by rw [runRetry, h i]; exact runRetry_eq_none h (i + 1) n

theorem aggregate_append (xs ys : List (Except Unit (Finset Record))) :
    aggregate (xs ++ ys) = aggregate xs + aggregate ys := by
  simp [aggregate]

theorem aggregate_skips_error (pre post : List (Except Unit (Finset Record))) :
    aggregate (pre ++ .error () :: post) = aggregate (pre ++ post) := by
  simp [aggregate]

theorem aggregate_skips_empty (pre post : List (Except Unit (Finset Record))) :
    aggregate (pre ++ .ok (∅ : Finset Record) :: post) = aggregate (pre ++ post) := by
  simp [aggregate]

/-- C2: with caching enabled, a fresh cache entry (age strictly below
`cache_max_age` hours) short-circuits the unit to its deserialized stored
set with no fetch; a missing or stale entry always reaches the fetch. -/
theorem cache_hit_spec (cfg : ScraperConfig) (env : MonthEnv)
    (hc : cfg.cache_enabled = true) :
    (∀ (a : ℚ) (recs : List Record),
      env.cacheAge = some a → a < cfg.cache_max_age * 3600 →
      env.cacheContent = some recs →
      getDataForMonth cfg env =
        { result := .ok recs.toFinset, fetchInvoked := false, cacheWritten := none }) ∧
    (∀ a : ℚ, env.cacheAge = some a → cfg.cache_max_age * 3600 ≤ a →
      (getDataForMonth cfg env).fetchInvoked = true) ∧
    (env.cacheAge = none → (getDataForMonth cfg env).fetchInvoked = true) := by
  refine ⟨fun a recs ha hfresh hcon => ?_, fun a ha hstale => ?_, fun ha => ?_⟩
  · have hv : isCacheValid cfg env.cacheAge = true := by
      rw [ha, isCacheValid]
      exact decide_eq_true hfresh
    rw [getDataForMonth, if_pos ⟨hc, hv⟩, hcon]
  · rw [getDataForMonth, if_neg ?_]
    · rcases runRetry env.attempts 0 (fetchTries cfg) with _ | (_ | rows) <;> rfl
    · rintro ⟨-, hv⟩
      rw [ha, isCacheValid] at hv
      exact absurd (of_decide_eq_true hv) (not_lt.mpr hstale)
  · rw [getDataForMonth, if_neg ?_]
    · rcases runRetry env.attempts 0 (fetchTries cfg) with _ | (_ | rows) <;> rfl
    · rintro ⟨-, hv⟩
      rw [ha, isCacheValid] at hv
      exact Bool.false_ne_true hv

/-- Witness for C2 at a fresh one-record cache entry under `baseCfg`. -/
theorem cache_hit_spec_witness :
    getDataForMonth baseCfg
      { cacheAge := some 100, cacheContent := some [sampleRecord],
        attempts := fun _ => none } =
      { result := .ok [sampleRecord].toFinset, fetchInvoked := false,
        cacheWritten := none } :=
  (cache_hit_spec baseCfg _ rfl).1 100 [sampleRecord] rfl (by norm_num [baseCfg]) rfl

/-- C10: a fresh but undeserializable cache entry makes the unit raise
(no fetch fallback), and the orchestrator's loop catches it, the unit
contributing nothing while the other units' contributions are intact. -/
theorem corrupt_cache_spec (cfg : ScraperConfig) (env : MonthEnv)
    (pre post : List (Except Unit (Finset Record))) (a : ℚ)
    (hc : cfg.cache_enabled = true) (ha : env.cacheAge = some a)
    (hfresh : a < cfg.cache_max_age * 3600) (hbad : env.cacheContent = none) :
    getDataForMonth cfg env =
      { result := .error (), fetchInvoked := false, cacheWritten := none } ∧
    aggregate (pre ++ .error () :: post) = aggregate (pre ++ post) := by
  refine ⟨?_, aggregate_skips_error pre post⟩
  have hv : isCacheValid cfg env.cacheAge = true := by
    rw [ha, isCacheValid]
    exact decide_eq_true hfresh
  rw [getDataForMonth, if_pos ⟨hc, hv⟩, hbad]

/-- Witness for C10: corrupt fresh cache entry under `baseCfg`, flanked by
one healthy unit. -/
theorem corrupt_cache_spec_witness :
    getDataForMonth baseCfg
      { cacheAge := some 100, cacheContent := none, attempts := fun _ => none } =
      { result := .error (), fetchInvoked := false, cacheWritten := none } ∧
    aggregate ([.ok {sampleRecord}] ++ .error () :: []) =
      aggregate ([.ok {sampleRecord}] ++ []) :=
  corrupt_cache_spec baseCfg _ [.ok {sampleRecord}] [] 100 rfl rfl
    (by norm_num [baseCfg]) rfl

/-- C4: when every network attempt fails, the unit returns the empty set
(no exception escapes that path), and an empty unit leaves the aggregate
of the other units untouched. -/
theorem fetch_failure_spec (cfg : ScraperConfig) (env : MonthEnv)
    (pre post : List (Except Unit (Finset Record)))
    (hmiss : ¬ (cfg.cache_enabled ∧ isCacheValid cfg env.cacheAge))
    (hfail : ∀ i, env.attempts i = none) :
    getDataForMonth cfg env =
      { result := .ok ∅, fetchInvoked := true, cacheWritten := none } ∧
    aggregate (pre ++ .ok (∅ : Finset Record) :: post) = aggregate (pre ++ post) := by
  refine ⟨?_, aggregate_skips_empty pre post⟩
  rw [getDataForMonth, if_neg hmiss, runRetry_eq_none hfail 0 (fetchTries cfg)]

/-- Witness for C4: all three attempts fail on an uncached unit, flanked by
one healthy unit. -/
theorem fetch_failure_spec_witness :
    getDataForMonth baseCfg
      { cacheAge := none, cacheContent := none, attempts := fun _ => none } =
      { result := .ok ∅, fetchInvoked := true, cacheWritten := none } ∧
    aggregate ([.ok {sampleRecord}] ++ .ok (∅ : Finset Record) :: []) =
      aggregate ([.ok {sampleRecord}] ++ []) :=
  fetch_failure_spec baseCfg _ [.ok {sampleRecord}] [] (by decide) (fun _ => rfl)

/-- Each unit's multiset contribution to `all_data` counts a record once
when the unit's set contains it, zero otherwise. -/
theorem count_unit_contribution (r : Record) (res : Except Unit (Finset Record)) :
    Multiset.count r
        (match res with
         | .ok s => s.val
         | .error _ => (0 : Multiset Record)) =
      match res with
      | .ok s => if r ∈ s then 1 else 0
      | .error _ => 0 := by
  rcases res with e | s
  · exact Multiset.count_zero r
  · dsimp only
    split
    · next hmem => exact Multiset.count_eq_one_of_mem s.nodup hmem
    · next hmem => exact Multiset.count_eq_zero_of_not_mem hmem

/-- C9: the aggregate is the plain concatenation of the units' sets, so a
record occurs once per unit containing it — in particular twice when two
units both yield it; no cross-unit dedup happens. -/
theorem aggregate_no_cross_unit_dedup :
    (∀ (results : List (Except Unit (Finset Record))) (r : Record),
      Multiset.count r (aggregate results) =
        (results.map fun res =>
          match res with
          | .ok s => if r ∈ s then 1 else 0
          | .error _ => 0).sum) ∧
    (∀ (S₁ S₂ : Finset Record) (r : Record), r ∈ S₁ → r ∈ S₂ →
      Multiset.count r (aggregate [.ok S₁, .ok S₂]) = 2) := by
  have key : ∀ (results : List (Except Unit (Finset Record))) (r : Record),
      Multiset.count r (aggregate results) =
        (results.map fun res =>
          match res with
          | .ok s => if r ∈ s then 1 else 0
          | .error _ => 0).sum := by
    intro results r
    induction results with
    | nil => rfl
    | cons res rest ih =>
        have hcons : aggregate (res :: rest) =
            (match res with
             | .ok s => s.val
             | .error _ => (0 : Multiset Record)) + aggregate rest := by
          simp [aggregate]
        rw [hcons, Multiset.count_add, ih, count_unit_contribution,
          List.map_cons, List.sum_cons]
  refine ⟨key, fun S₁ S₂ r h₁ h₂ => ?_⟩
  rw [key]
  simp [h₁, h₂]

/-- Witness for C9: the same record in two units is counted twice. -/
theorem aggregate_no_cross_unit_dedup_witness :
    Multiset.count sampleRecord
      (aggregate [.ok {sampleRecord}, .ok {sampleRecord}]) = 2 :=
  aggregate_no_cross_unit_dedup.2 {sampleRecord} {sampleRecord} sampleRecord
    (Finset.mem_singleton_self sampleRecord) (Finset.mem_singleton_self sampleRecord)

/-- Environment of an uncached unit whose fetch succeeds but whose response
has no `table.tinytable`. -/
def noTableEnv : MonthEnv :=
  { cacheAge := none, cacheContent := none, attempts := fun _ => some none }

/-- Environment of an uncached unit whose fetch succeeds with a one-row
table. -/
def tableEnv : MonthEnv :=
  { cacheAge := none, cacheContent := none,
    attempts := fun _ => some (some [sampleRow]) }

/-- C8 counterexample: with caching enabled (`baseCfg`), a cache miss whose
fetch succeeds but finds no table completes with the empty set and writes
nothing to the cache — the claimed CacheWrite step does not happen. -/
theorem no_table_skips_cache_write :
    (getDataForMonth baseCfg noTableEnv).result = .ok ∅ ∧
    (getDataForMonth baseCfg noTableEnv).cacheWritten = none ∧
    baseCfg.cache_enabled = true :=
  ⟨rfl, rfl, rfl⟩

/-- C8 amended: on a cache miss, a successful fetch that finds a table runs
Filter → Dedup → CacheWrite (the filtered deduplicated set, even when it is
empty, is written when caching is enabled); a successful fetch with no
table returns the empty set without writing the cache. -/
theorem cache_write_after_table (cfg : ScraperConfig) (env : MonthEnv)
    (rows : List (List String))
    (hmiss : ¬ (cfg.cache_enabled ∧ isCacheValid cfg env.cacheAge)) :
    (runRetry env.attempts 0 (fetchTries cfg) = some (some rows) →
      cfg.cache_enabled = true →
      getDataForMonth cfg env =
        { result := .ok (filterRows cfg rows), fetchInvoked := true,
          cacheWritten := some (filterRows cfg rows) }) ∧
    (runRetry env.attempts 0 (fetchTries cfg) = some none →
      getDataForMonth cfg env =
        { result := .ok ∅, fetchInvoked := true, cacheWritten := none }) := by
  constructor
  · intro hfetch hce
    rw [getDataForMonth, if_neg hmiss, hfetch]
    dsimp only
    rw [if_pos hce]
  · intro hfetch
    rw [getDataForMonth, if_neg hmiss, hfetch]

/-- Witness for the amended C8: the one-row table is filtered, deduplicated
and written back under `baseCfg`. -/
theorem cache_write_after_table_witness :
    getDataForMonth baseCfg tableEnv =
      { result := .ok (filterRows baseCfg [sampleRow]), fetchInvoked := true,
        cacheWritten := some (filterRows baseCfg [sampleRow]) } :=
  (cache_write_after_table baseCfg tableEnv [sampleRow] (by decide)).1 rfl rfl

/-- C3: the retry decorator on `_fetch_data` is `@retry(tries=3, delay=2,
backoff=2)` — the attempt count is the literal 3 and the delays double
(2 s, 4 s), but `ScraperConfig.retry_attempts` is never consulted: with
`retry_attempts = 5` the code still makes exactly 3 attempts. -/
theorem retry_count_ignores_config :
    fetchTries { baseCfg with retry_attempts := 5 } = 3 ∧
    ({ baseCfg with retry_attempts := 5 } : ScraperConfig).retry_attempts = 5 ∧
    (3 : Nat) ≠ 5 ∧
    fetchDelays { baseCfg with retry_attempts := 5 } = [2, 4] := by
  refine ⟨rfl, rfl, by decide, ?_⟩
  norm_num [fetchDelays, fetchTries, retrySchedule]

end OpenInsider
